import Mathlib

/-!
Verification of the zonal/point raster query engine in `src/api_valor.py`.

The Python source is shallowly embedded:
* JSON-ish nested coordinate arrays become the inductive type `Coords`;
  Python indexing errors (`TypeError`/`IndexError`) become `Except Unit`.
* Raster pixel values become `PixelVal` (an explicit NaN marker plus a
  rational payload); the zonal filter compares with numpy's IEEE `!=`,
  the point read's nodata mask with GDAL's NaN-aware sentinel test.
* The stages of `zonal_mean` whose outcome depends on external libraries
  (shapely validity, geometric intersection, `rasterio.windows.from_bounds`,
  the windowed read, the mask rasterization) are oracles carried by a
  `ZonalEnv` record; the control flow around them is translated verbatim.
-/

namespace ApiValor

/-- A JSON-like nested array value, as received in `geometry.coordinates`:
either a number or an array of such values. -/
inductive Coords where
  | num (q : ℚ)
  | arr (l : List Coords)
deriving Repr

mutual

/-- Structural (Python `==`/`!=`) equality on JSON-like values. -/
def Coords.beq : Coords → Coords → Bool
  | .num a, .num b => a == b
  | .arr l, .arr m => Coords.beqList l m
  | _, _ => false

/-- Structural equality on lists of JSON-like values. -/
def Coords.beqList : List Coords → List Coords → Bool
  | [], [] => true
  | a :: l, b :: m => Coords.beq a b && Coords.beqList l m
  | _, _ => false

end

/-- Lawfulness of `Coords.beq`, packaged as a definition because the
`DecidableEq` instance below consumes it. -/
def Coords.beqIff : ∀ (a b : Coords), (Coords.beq a b = true) ↔ a = b :=
  @Coords.rec (fun a => ∀ b, (Coords.beq a b = true) ↔ a = b)
    (fun l => ∀ m, (Coords.beqList l m = true) ↔ l = m)
    (fun q b => by
      cases b with
      | num r => show (q == r) = true ↔ _; simp
      | arr m => show false = true ↔ _; simp)
    (fun l ih b => by
      cases b with
      | num r => show false = true ↔ _; simp
      | arr m => show Coords.beqList l m = true ↔ _; rw [ih m]; simp)
    (fun m => by
      cases m with
      | nil => show true = true ↔ _; simp
      | cons d m2 => show false = true ↔ _; simp)
    (fun c l ihc ihl m => by
      cases m with
      | nil => show false = true ↔ _; simp
      | cons d m2 =>
        show (Coords.beq c d && Coords.beqList l m2) = true ↔ _
        rw [Bool.and_eq_true, ihc d, ihl m2]
        simp)

instance : DecidableEq Coords := fun a b => decidable_of_iff _ (Coords.beqIff a b)

/-- Python `c[i]` for a non-negative index: raises (`Except.error`) on a
number (`TypeError`) or an out-of-range index (`IndexError`). -/
def pyIndex : Coords → ℕ → Except Unit Coords
  | .num _, _ => .error ()
  | .arr l, i =>
    match l.get? i with
    | some c => .ok c
    | none => .error ()

/-- Python `c[-1]`: last element, raising on a number or an empty array. -/
def pyLast : Coords → Except Unit Coords
  | .num _ => .error ()
  | .arr l =>
    match l.getLast? with
    | some c => .ok c
    | none => .error ()

/-- `close_ring` from `_close_rings` in `src/api_valor.py`:
empty ring unchanged; if `r[0][0] != r[-1][0] or r[0][1] != r[-1][1]`
then `r + [r[0]]`, else `r`.  `len(r)` on a number raises, as does any of
the four inner index accesses on a malformed ring. -/
def close_ring (r : Coords) : Except Unit Coords :=
  match r with
  | .num _ => .error ()
  | .arr l =>
    if l.isEmpty then .ok r
    else
      match pyIndex r 0, pyLast r with
      | .ok f, .ok lst =>
        match pyIndex f 0, pyIndex lst 0 with
        | .ok f0, .ok l0 =>
          if f0 ≠ l0 then .ok (.arr (l ++ [f]))
          else
            match pyIndex f 1, pyIndex lst 1 with
            | .ok f1, .ok l1 =>
              if f1 ≠ l1 then .ok (.arr (l ++ [f])) else .ok r
            | _, _ => .error ()
        | _, _ => .error ()
      | _, _ => .error ()

/-- View a value as an array (Python iteration / `list(...)`), raising on a
number. -/
def asArr : Coords → Except Unit (List Coords)
  | .num _ => .error ()
  | .arr l => .ok l

/-- The list comprehension `[close_ring(list(r)) for r in coords]`:
closes each ring in order, propagating the first exception. -/
def closeRings : List Coords → Except Unit (List Coords)
  | [] => .ok []
  | r :: rest => do
    let r2 ← close_ring r
    let rest2 ← closeRings rest
    return r2 :: rest2

/-- The MultiPolygon loop `for poly in coords: fixed.append([...])`:
each polygon must itself be an array of rings, each of which is closed. -/
def closePolys : List Coords → Except Unit (List Coords)
  | [] => .ok []
  | poly :: rest => do
    let rs ← asArr poly
    let rs2 ← closeRings rs
    let rest2 ← closePolys rest
    return Coords.arr rs2 :: rest2

/-- `_close_rings` from `src/api_valor.py`.  Probes `coords[0][0][0]`:
if it is a number, the input is treated as Polygon coordinates and each
ring is closed; otherwise as MultiPolygon coordinates and each ring of
each polygon is closed.  Any exception anywhere returns the input
unchanged (the bare `except Exception: return coords`). -/
def _close_rings (coords : Coords) : Coords :=
  let attempt : Except Unit Coords := do
    let c1 ← pyIndex coords 0
    let c2 ← pyIndex c1 0
    let c3 ← pyIndex c2 0
    match c3 with
    | .num _ => do
      let rings ← asArr coords
      let fixed ← closeRings rings
      return .arr fixed
    | .arr _ => do
      let polys ← asArr coords
      let fixed ← closePolys polys
      return .arr fixed
  match attempt with
  | .ok r => r
  | .error _ => coords

/-- A coordinate pair `[x, y]` in `Coords` form. -/
def pairC (p : ℚ × ℚ) : Coords :=
  .arr [.num p.1, .num p.2]

/-- A ring given as a list of coordinate pairs, in `Coords` form. -/
def ringOfPairs (l : List (ℚ × ℚ)) : Coords :=
  .arr (l.map pairC)

/-- A concrete open bare ring `[[0,0],[1,0],[0,1]]`. -/
def bareRing : Coords := ringOfPairs [(0, 0), (1, 0), (0, 1)]

/-- The same ring closed: `[[0,0],[1,0],[0,1],[0,0]]`. -/
def closedBareRing : Coords := ringOfPairs [(0, 0), (1, 0), (0, 1), (0, 0)]

/-- A raster pixel value: either IEEE NaN or an actual number (modelled as a
rational, which covers both the integer and the floating raster dtypes the
endpoint promotes to `float`). -/
inductive PixelVal where
  | nan
  | val (q : ℚ)
deriving DecidableEq, Repr

/-- IEEE `!=` on pixel values, as numpy evaluates `arr != nodata`:
NaN compares unequal to everything (including NaN itself). -/
def pixNe : PixelVal → PixelVal → Bool
  | .val a, .val b => a != b
  | _, _ => true

/-- `True` for an actual number, `False` for NaN. -/
def isNum : PixelVal → Bool
  | .nan => false
  | .val _ => true

/-- The numeric (non-NaN) entries of a list of pixel values. -/
def numVals (l : List PixelVal) : List ℚ :=
  l.filterMap fun v => match v with | .nan => none | .val q => some q

/-- `np.nanmean`: the arithmetic mean of the non-NaN entries, NaN when
every entry is NaN. -/
def nanmean (l : List PixelVal) : PixelVal :=
  let ns := numVals l
  if ns.isEmpty then .nan else .val (ns.sum / (ns.length : ℚ))

/-- Modelled from the spec: the plain IEEE arithmetic mean of a list of
pixel values ("the arithmetic mean of valid pixel values promoted to
floating point"), under which any NaN entry makes the mean NaN.  Used only
to compare the spec's aggregation rule with the code's `np.nanmean`. -/
def ieeeMean (l : List PixelVal) : PixelVal :=
  if l.isEmpty then .nan
  else if l.all isNum then .val ((numVals l).sum / ((numVals l).length : ℚ))
  else .nan

/-- The raster metadata `zonal_mean` and `get_value` consult. -/
structure Raster where
  width : ℕ
  height : ℕ
  crs : Option String
  nodata : Option PixelVal
deriving Repr

/-- The JSON body of a successful `/zonal` response. -/
structure ZonalResponse where
  mean : Option PixelVal
  count : ℕ
  note : Option String
deriving DecidableEq, Repr

/-- An `HTTPException(status_code, detail)`. -/
structure HTTPError where
  status : ℕ
  detail : String
deriving DecidableEq, Repr

/-- The NoData part of the `valid` filter: `nodata is None or pixel !=
nodata` (IEEE `!=`). -/
def nodataOk (nodata : Option PixelVal) (a : PixelVal) : Bool :=
  match nodata with
  | none => true
  | some nd => pixNe a nd

/-- The `valid` filter and `arr[valid]` of the compute stage: the window
cells kept for aggregation, i.e. those covered by the rasterized mask whose
value moreover differs (IEEE `!=`) from the NoData sentinel when one is
set.  `arr` and `mask` are the window's cells in row-major order. -/
def validVals (arr : List PixelVal) (mask : List Bool) (nodata : Option PixelVal) :
    List PixelVal :=
  ((arr.zip mask).filter fun p => p.2 && nodataOk nodata p.1).map Prod.fst

/-- The compute stage of `zonal_mean` (lines 246–256 of `src/api_valor.py`):
filter by mask and NoData, then either the zero result with its diagnostic
note or `{mean: float(np.nanmean(vals)), count: vals.size}`. -/
def aggregate (arr : List PixelVal) (mask : List Bool) (nodata : Option PixelVal) :
    ZonalResponse :=
  if (validVals arr mask nodata).isEmpty then
    { mean := none, count := 0, note := some "sem pixels válidos (NoData/fora do raster)" }
  else
    { mean := some (nanmean (validVals arr mask nodata)),
      count := (validVals arr mask nodata).length, note := none }

/-- The CRS spellings `_to_src_crs` short-circuits on. -/
def wgs84Names : List String := ["EPSG:4326", "WGS84"]

/-- Python `str.upper()` (character-wise upper-casing, which is all ASCII
CRS names need), as a map over the string's characters. -/
def pyUpper (s : String) : String := String.mk (s.data.map Char.toUpper)

/-- `_to_src_crs` from `src/api_valor.py`, generic in the geometry type:
no CRS or a WGS84 CRS returns the geometry unchanged; otherwise the
transformer (whose success is the oracle `transformerOk`) is applied, and a
transformer-construction failure raises a 400 with the reproject stage. -/
def _to_src_crs {α : Type} (crs : Option String) (transformerOk : Bool)
    (tr : α → α) (g : α) : Except HTTPError α :=
  match crs with
  | none => .ok g
  | some c =>
    if pyUpper c ∈ wgs84Names then .ok g
    else if transformerOk then .ok (tr g)
    else .error { status := 400, detail := "stage=reproject | falha ao construir transformador" }

/-- A clamped pixel window, `rasterio.windows.Window(col0, row0, w, h)`. -/
structure PixelWindow where
  colOff : ℤ
  rowOff : ℤ
  width : ℤ
  height : ℤ
deriving DecidableEq, Repr

/-- The window-clamping arithmetic of `zonal_mean` (lines 218–222):
floor/ceil the fractional window returned by `from_bounds`, clamp to
`[0,width)×[0,height)`. -/
def clampWindow (colOff rowOff w h : ℚ) (W H : ℕ) : PixelWindow :=
  { colOff := max 0 ⌊colOff⌋
    rowOff := max 0 ⌊rowOff⌋
    width := min (W : ℤ) ⌈colOff + w⌉ - max 0 ⌊colOff⌋
    height := min (H : ℤ) ⌈rowOff + h⌉ - max 0 ⌊rowOff⌋ }

/-- One `/zonal` request after input normalization, with the outcomes of
the external-library calls as oracles: `shapeOk` (shapely construction),
`isEmpty`/`validBefore`/`emptyAfterBuffer`/`validAfterBuffer` (validity
pipeline), `transformerOk` (pyproj), `intersects` (bounds check against the
raster box), the fractional window from `from_bounds`, and the results of
the windowed read and of the window-aligned rasterization. -/
structure ZonalEnv where
  raster : Raster
  shapeOk : Bool
  isEmpty : Bool
  validBefore : Bool
  emptyAfterBuffer : Bool
  validAfterBuffer : Bool
  transformerOk : Bool
  intersects : Bool
  winColOff : ℚ
  winRowOff : ℚ
  winWidth : ℚ
  winHeight : ℚ
  readResult : Except String (List PixelVal)
  rasterizeResult : Except String (List Bool)

/-- The clamped window of a zonal request. -/
def envWindow (env : ZonalEnv) : PixelWindow :=
  clampWindow env.winColOff env.winRowOff env.winWidth env.winHeight
    env.raster.width env.raster.height

/-- `zonal_mean` from `src/api_valor.py` (stages validate → reproject →
bounds-check → window → read → rasterize → compute), with the same control
flow and early returns as the Python function.  Failures of the windowed
read and of the rasterization surface as staged 400 errors through the
final `except` clause. -/
def zonal_mean (env : ZonalEnv) : Except HTTPError ZonalResponse :=
  if !env.shapeOk then
    .error { status := 400, detail := "stage=validate | falha ao ler GeoJSON" }
  else if env.isEmpty then
    .ok { mean := none, count := 0, note := some "geometria vazia" }
  else if !env.validBefore && (env.emptyAfterBuffer || !env.validAfterBuffer) then
    .error { status := 400, detail := "stage=validate | geometria inválida" }
  else
    match _to_src_crs env.raster.crs env.transformerOk id () with
    | .error e => .error e
    | .ok _ =>
      if !env.intersects then
        .ok { mean := none, count := 0, note := some "geometria não intersecta o raster" }
      else
        if (envWindow env).width ≤ 0 ∨ (envWindow env).height ≤ 0 then
          .ok { mean := none, count := 0, note := some "janela vazia" }
        else
          match env.readResult with
          | .error e => .error { status := 400, detail := "stage=read | " ++ e }
          | .ok arr =>
            match env.rasterizeResult with
            | .error e => .error { status := 400, detail := "stage=rasterize | " ++ e }
            | .ok mask => .ok (aggregate arr mask env.raster.nodata)

/-- One `/point` request after reprojection: `row`/`col` are the pixel
indices `src.index` computed, `pix` the band contents. -/
structure PointEnv where
  raster : Raster
  row : ℤ
  col : ℤ
  pix : ℤ → ℤ → PixelVal

/-- Whether the masked 1×1 read masks the pixel, per the nodata mask
rasterio derives from GDAL: with no sentinel nothing is masked; a numeric
sentinel masks exactly the pixels holding that number (a NaN pixel is not
that number); a NaN sentinel is special-cased (GDAL tests `isnan` rather
than `==`) and masks exactly the NaN pixels. -/
def maskedAt (nodata : Option PixelVal) (v : PixelVal) : Bool :=
  match nodata, v with
  | none, _ => false
  | some .nan, .nan => true
  | some .nan, .val _ => false
  | some (.val nd), .val q => nd == q
  | some (.val _), .nan => false

/-- `get_value` from `src/api_valor.py` (the `/point` endpoint body after
`src.index`): out-of-bounds row/col gives `{value: None}`, a masked pixel
gives `{value: None}`, otherwise `{value: float(val)}`. -/
def get_value (env : PointEnv) : Option PixelVal :=
  if env.row < 0 ∨ env.col < 0 ∨
      (env.raster.height : ℤ) ≤ env.row ∨ (env.raster.width : ℤ) ≤ env.col then
    none
  else
    let v := env.pix env.row env.col
    if maskedAt env.raster.nodata v then none
    else some v

/-- The geometry passed the validity stage: either valid on arrival, or
repaired by `buffer(0)` into a non-empty valid geometry. -/
def validOk (env : ZonalEnv) : Prop :=
  env.validBefore = true ∨
    (env.emptyAfterBuffer = false ∧ env.validAfterBuffer = true)

/-- The reprojection stage succeeded for this request. -/
def reprojOk (env : ZonalEnv) : Prop :=
  _to_src_crs env.raster.crs env.transformerOk id () = Except.ok ()

/-- Whether window cell `i` (row-major) is valid per the aggregation
contract: covered by the mask and, when a NoData sentinel is set, holding a
value IEEE-unequal to it. -/
def validAt (arr : List PixelVal) (mask : List Bool) (nodata : Option PixelVal)
    (i : ℕ) : Bool :=
  match arr.get? i, mask.get? i with
  | some a, some m => m && nodataOk nodata a
  | _, _ => false

/-- A raster with no CRS and no NoData sentinel, for concrete runs. -/
def plainRaster : Raster :=
  { width := 10, height := 10, crs := none, nodata := none }

/-- A concrete accepted zonal request whose windowed read fails. -/
def envReadFail : ZonalEnv :=
  { raster := plainRaster
    shapeOk := true
    isEmpty := false
    validBefore := true
    emptyAfterBuffer := false
    validAfterBuffer := true
    transformerOk := true
    intersects := true
    winColOff := 0
    winRowOff := 0
    winWidth := 4
    winHeight := 4
    readResult := .error "falha de leitura"
    rasterizeResult := .ok [true, true, true, true] }

/-- A concrete accepted zonal request whose rasterization fails. -/
def envRasterizeFail : ZonalEnv :=
  { envReadFail with
    readResult := .ok [.val 1, .val 2, .val 3, .val 4]
    rasterizeResult := .error "falha de rasterizacao" }

/-- A concrete zonal request whose geometry is empty. -/
def envEmptyGeom : ZonalEnv :=
  { envReadFail with isEmpty := true }

/-- A concrete in-bounds point request over a raster with NoData `-9999`
whose band holds `7` everywhere. -/
def envPoint : PointEnv :=
  { raster := { width := 10, height := 10, crs := none, nodata := some (.val (-9999)) }
    row := 2
    col := 3
    pix := fun _ _ => .val 7 }

/-! ## Theorems -/

/-- Evaluation of `close_ring` on a non-empty ring of coordinate pairs:
the ring is returned unchanged when its first and last pairs agree, and
with a copy of the first pair appended otherwise. -/
theorem close_ring_pairs (a b : ℚ × ℚ) (rest : List (ℚ × ℚ))
    (hb : ((a :: rest) : List (ℚ × ℚ)).getLast? = some b) :
    close_ring (ringOfPairs (a :: rest)) =
      Except.ok (if a = b then ringOfPairs (a :: rest)
                 else ringOfPairs ((a :: rest) ++ [a])) := by
  have e2' : (pairC a :: List.map pairC rest).getLast? = some (pairC b) := by
    rw [← List.map_cons, List.getLast?_map, hb, Option.map_some']
  have e2 : pyLast (Coords.arr (pairC a :: List.map pairC rest)) = Except.ok (pairC b) := by
    simp only [pyLast, e2']
  have e1 : pyIndex (Coords.arr (pairC a :: List.map pairC rest)) 0 =
      Except.ok (pairC a) := rfl
  have e3 : pyIndex (pairC a) 0 = Except.ok (Coords.num a.1) := rfl
  have e4 : pyIndex (pairC b) 0 = Except.ok (Coords.num b.1) := rfl
  have e5 : pyIndex (pairC a) 1 = Except.ok (Coords.num a.2) := rfl
  have e6 : pyIndex (pairC b) 1 = Except.ok (Coords.num b.2) := rfl
  show close_ring (Coords.arr (pairC a :: List.map pairC rest)) = _
  simp only [close_ring, List.isEmpty_cons, e1, e2, e3, e4, e5, e6]
  by_cases h1 : a.1 = b.1
  · by_cases h2 : a.2 = b.2
    · have hab : a = b := Prod.ext h1 h2
      simp [h1, h2, hab, ringOfPairs]
    · have hab : a ≠ b := fun h => h2 (by rw [h])
      simp [h1, h2, hab, ringOfPairs, List.map_append]
  · have hab : a ≠ b := fun h => h1 (by rw [h])
    simp [h1, hab, ringOfPairs, List.map_append]

/-- C1 (counterexample): the normalizer does not wrap an under-nested
Polygon coordinates field.  The bare ring `[[0,0],[1,0],[0,1]]` is returned
unchanged (still depth 1), while the same ring already wrapped in an array
normalizes to the closed depth-2 structure, so the two inputs do not
normalize to an identical canonical structure. -/
theorem C1_counterexample :
    _close_rings bareRing = bareRing ∧
    _close_rings (Coords.arr [bareRing]) = Coords.arr [closedBareRing] ∧
    bareRing ≠ Coords.arr [closedBareRing] :=
  ⟨by decide, by decide, by decide⟩

/-- C1 (amended): whenever the first entry of the first entry of the
coordinates is a number — in particular for every bare ring, a depth-1
array of numeric pairs — the depth probe `coords[0][0][0]` raises, the
exception is swallowed, and `_close_rings` returns the coordinates
unchanged: under-nested input is passed through, never wrapped. -/
theorem C1_bare_ring_unchanged (x : ℚ) (tail rest : List Coords) :
    _close_rings (Coords.arr (Coords.arr (Coords.num x :: tail) :: rest)) =
      Coords.arr (Coords.arr (Coords.num x :: tail) :: rest) := rfl

/-- C7: for every non-empty ring of coordinate pairs, `close_ring` returns
the ring unchanged when its first and last pairs coincide, and the ring
with a copy of the first pair appended when they differ. -/
theorem C7_ring_closure (a b : ℚ × ℚ) (rest : List (ℚ × ℚ))
    (hb : ((a :: rest) : List (ℚ × ℚ)).getLast? = some b) :
    (a = b → close_ring (ringOfPairs (a :: rest)) =
      Except.ok (ringOfPairs (a :: rest))) ∧
    (a ≠ b → close_ring (ringOfPairs (a :: rest)) =
      Except.ok (ringOfPairs ((a :: rest) ++ [a]))) := by
  refine ⟨fun h => ?_, fun h => ?_⟩ <;>
    rw [close_ring_pairs a b rest hb] <;> simp [h]

/-- C7 (witness): the open ring `[[0,0],[1,0]]` is closed by appending
`[0,0]`, via `C7_ring_closure` at a concrete input. -/
theorem C7_witness :
    close_ring (ringOfPairs [((0 : ℚ), (0 : ℚ)), (1, 0)]) =
      Except.ok (ringOfPairs [((0 : ℚ), (0 : ℚ)), (1, 0), (0, 0)]) :=
  (C7_ring_closure (0, 0) (1, 0) [(1, 0)] rfl).2 (by decide)

/-- The geometry-validity guard of `zonal_mean` is passed by every request
satisfying `validOk`. -/
theorem validOk_guard (env : ZonalEnv) (hv : validOk env) :
    (!env.validBefore && (env.emptyAfterBuffer || !env.validAfterBuffer)) = false := by
  rcases hv with h | ⟨h1, h2⟩
  · simp [h]
  · simp [h1, h2]

/-- A zonal request that is accepted, intersects the raster and has a
non-degenerate clamped window proceeds to the windowed read, the
rasterization and the compute stage, in that order. -/
theorem zonal_mean_past_window (env : ZonalEnv)
    (hs : env.shapeOk = true) (he : env.isEmpty = false) (hv : validOk env)
    (hr : reprojOk env) (hi : env.intersects = true)
    (hw : ¬((envWindow env).width ≤ 0 ∨ (envWindow env).height ≤ 0)) :
    zonal_mean env =
      match env.readResult with
      | .error e => .error { status := 400, detail := "stage=read | " ++ e }
      | .ok arr =>
        match env.rasterizeResult with
        | .error e => .error { status := 400, detail := "stage=rasterize | " ++ e }
        | .ok mask => .ok (aggregate arr mask env.raster.nodata) := by
  rw [reprojOk] at hr
  simp only [zonal_mean, hs, he, validOk_guard env hv, hr, hi, hw, Bool.not_true,
    Bool.false_eq_true, if_false, ite_false]

/-- C2 (counterexample): a concrete accepted zonal request whose windowed
read fails.  The request errors with a staged 400 instead of falling back
to a whole-grid strategy and returning a successful result with a note. -/
theorem C2_counterexample :
    zonal_mean envReadFail =
      Except.error { status := 400, detail := "stage=read | falha de leitura" } := by
  have hw : ¬((envWindow envReadFail).width ≤ 0 ∨ (envWindow envReadFail).height ≤ 0) := by
    norm_num [envWindow, clampWindow, envReadFail, plainRaster]
  rw [zonal_mean_past_window envReadFail rfl rfl (Or.inl rfl) rfl rfl hw]
  rfl

/-- C2 (amended): when the windowed read or the window-aligned
rasterization of an accepted, intersecting, non-degenerate-window zonal
request fails, the request fails with a 400 error naming the read or
rasterize stage; there is no whole-grid fallback. -/
theorem C2_windowed_failure_errors (env : ZonalEnv)
    (hs : env.shapeOk = true) (he : env.isEmpty = false) (hv : validOk env)
    (hr : reprojOk env) (hi : env.intersects = true)
    (hw : 0 < (envWindow env).width) (hh : 0 < (envWindow env).height) :
    (∀ msg, env.readResult = Except.error msg →
      zonal_mean env =
        Except.error { status := 400, detail := "stage=read | " ++ msg }) ∧
    (∀ arr msg, env.readResult = Except.ok arr →
      env.rasterizeResult = Except.error msg →
      zonal_mean env =
        Except.error { status := 400, detail := "stage=rasterize | " ++ msg }) := by
  have hz := zonal_mean_past_window env hs he hv hr hi
    (not_or.mpr ⟨not_le.mpr hw, not_le.mpr hh⟩)
  constructor
  · intro msg hm
    rw [hz, hm]
  · intro arr msg ha hm
    rw [hz, ha, hm]

/-- C2 (witness): `C2_windowed_failure_errors` applied to the concrete
request whose rasterization fails. -/
theorem C2_witness :
    zonal_mean envRasterizeFail =
      Except.error { status := 400, detail := "stage=rasterize | falha de rasterizacao" } :=
  (C2_windowed_failure_errors envRasterizeFail rfl rfl (Or.inl rfl) rfl rfl
      (by norm_num [envWindow, clampWindow, envRasterizeFail, envReadFail, plainRaster])
      (by norm_num [envWindow, clampWindow, envRasterizeFail, envReadFail, plainRaster])).2
    [.val 1, .val 2, .val 3, .val 4] "falha de rasterizacao" rfl rfl

/-- C5: every accepted geometry that yields zero valid pixels — empty
geometry, no intersection with the raster extent, degenerate clamped
window, or mask-covered cells that are all NoData — produces the
successful zero result `{mean: null, count: 0}` with the matching
diagnostic note, never an error. -/
theorem C5_zero_results (env : ZonalEnv) (hs : env.shapeOk = true) :
    (env.isEmpty = true →
      zonal_mean env =
        Except.ok { mean := none, count := 0, note := some "geometria vazia" }) ∧
    (env.isEmpty = false → validOk env → reprojOk env → env.intersects = false →
      zonal_mean env = Except.ok
        { mean := none, count := 0, note := some "geometria não intersecta o raster" }) ∧
    (env.isEmpty = false → validOk env → reprojOk env → env.intersects = true →
      ((envWindow env).width ≤ 0 ∨ (envWindow env).height ≤ 0) →
      zonal_mean env =
        Except.ok { mean := none, count := 0, note := some "janela vazia" }) ∧
    (env.isEmpty = false → validOk env → reprojOk env → env.intersects = true →
      ¬((envWindow env).width ≤ 0 ∨ (envWindow env).height ≤ 0) →
      ∀ arr mask, env.readResult = Except.ok arr →
        env.rasterizeResult = Except.ok mask →
        validVals arr mask env.raster.nodata = [] →
        zonal_mean env = Except.ok
          { mean := none, count := 0,
            note := some "sem pixels válidos (NoData/fora do raster)" }) := by
  refine ⟨fun he => ?_, fun he hv hr hi => ?_, fun he hv hr hi hw => ?_,
    fun he hv hr hi hw arr mask ha hm hvals => ?_⟩
  · simp only [zonal_mean, hs, he, Bool.not_true, Bool.false_eq_true, if_false, if_true]
  · rw [reprojOk] at hr
    simp only [zonal_mean, hs, he, validOk_guard env hv, hr, hi, Bool.not_true,
      Bool.not_false, Bool.false_eq_true, if_false, if_true, ite_false, ite_true]
  · rw [reprojOk] at hr
    simp only [zonal_mean, hs, he, validOk_guard env hv, hr, hi, hw, Bool.not_true,
      Bool.false_eq_true, if_false, ite_false, if_true, ite_true]
  · rw [zonal_mean_past_window env hs he hv hr hi hw, ha, hm]
    simp only [aggregate, hvals, List.isEmpty_nil, if_true, ite_true]

/-- C5 (witness): `C5_zero_results` at the concrete empty-geometry
request. -/
theorem C5_witness :
    zonal_mean envEmptyGeom =
      Except.ok { mean := none, count := 0, note := some "geometria vazia" } :=
  (C5_zero_results envEmptyGeom rfl).1 rfl

/-- C9: the clamped pixel window always lies inside the raster grid
(`0 ≤ colOff`, `0 ≤ rowOff`, `colOff + width ≤ raster.width`,
`rowOff + height ≤ raster.height`), and a request whose clamped window has
non-positive width or height stops with the `janela vazia` zero result
instead of proceeding to the read/rasterize stages. -/
theorem C9_window_subset (env : ZonalEnv) (hs : env.shapeOk = true)
    (he : env.isEmpty = false) (hv : validOk env) (hr : reprojOk env)
    (hi : env.intersects = true) :
    (0 ≤ (envWindow env).colOff ∧ 0 ≤ (envWindow env).rowOff ∧
      (envWindow env).colOff + (envWindow env).width ≤ (env.raster.width : ℤ) ∧
      (envWindow env).rowOff + (envWindow env).height ≤ (env.raster.height : ℤ)) ∧
    (((envWindow env).width ≤ 0 ∨ (envWindow env).height ≤ 0) →
      zonal_mean env =
        Except.ok { mean := none, count := 0, note := some "janela vazia" }) := by
  constructor
  · simp only [envWindow, clampWindow]
    omega
  · intro hw
    rw [reprojOk] at hr
    simp only [zonal_mean, hs, he, validOk_guard env hv, hr, hi, hw, Bool.not_true,
      Bool.false_eq_true, if_false, ite_false, if_true, ite_true]

/-- C9 (witness): the window-subset invariant of `C9_window_subset`,
extracted at a concrete accepted request. -/
theorem C9_witness :
    0 ≤ (envWindow envReadFail).colOff ∧
      (envWindow envReadFail).colOff + (envWindow envReadFail).width ≤
        (envReadFail.raster.width : ℤ) :=
  ⟨((C9_window_subset envReadFail rfl rfl (Or.inl rfl) rfl rfl).1).1,
    ((C9_window_subset envReadFail rfl rfl (Or.inl rfl) rfl rfl).1).2.2.1⟩

/-- C10: in every successful zonal response, the mean is null exactly when
the count is zero — every zero-count path returns `mean = null`, and the
aggregation path returns a non-null mean for a positive count. -/
theorem C10_mean_null_iff_zero_count (env : ZonalEnv) (r : ZonalResponse)
    (h : zonal_mean env = Except.ok r) : r.mean = none ↔ r.count = 0 := by
  unfold zonal_mean at h
  split at h
  · exact absurd h (by simp)
  · split at h
    · simp only [Except.ok.injEq] at h
      subst h
      simp
    · split at h
      · exact absurd h (by simp)
      · split at h
        · exact absurd h (by simp)
        · split at h
          · simp only [Except.ok.injEq] at h
            subst h
            simp
          · split at h
            · simp only [Except.ok.injEq] at h
              subst h
              simp
            · split at h
              · exact absurd h (by simp)
              · split at h
                · exact absurd h (by simp)
                · simp only [Except.ok.injEq] at h
                  subst h
                  simp only [aggregate]
                  split
                  · simp
                  · rename_i hne
                    simp only [List.isEmpty_iff] at hne
                    simp [List.length_eq_zero, hne]

/-- C10 (witness): `C10_mean_null_iff_zero_count` at the concrete
empty-geometry request, whose response is the zero result. -/
theorem C10_witness :
    (({ mean := none, count := 0, note := some "geometria vazia" } : ZonalResponse).mean
        = none) ↔
      ({ mean := none, count := 0, note := some "geometria vazia" } : ZonalResponse).count
        = 0 :=
  C10_mean_null_iff_zero_count envEmptyGeom _ rfl

/-- `numVals` is unchanged by first dropping the NaN entries. -/
theorem numVals_filter_isNum (l : List PixelVal) :
    numVals (l.filter isNum) = numVals l := by
  induction l with
  | nil => rfl
  | cons a l ih =>
    cases a
    · simpa [numVals, isNum, List.filter_cons, List.filterMap_cons] using ih
    · simpa [numVals, isNum, List.filter_cons, List.filterMap_cons] using ih

/-- `np.nanmean` ignores NaN entries: dropping them first does not change
the result. -/
theorem nanmean_filter_isNum (l : List PixelVal) :
    nanmean (l.filter isNum) = nanmean l := by
  unfold nanmean
  rw [numVals_filter_isNum]

/-- On a NaN-free list, `numVals` keeps every entry. -/
theorem numVals_length_of_all (l : List PixelVal) (h : l.all isNum = true) :
    (numVals l).length = l.length := by
  induction l with
  | nil => rfl
  | cons a l ih =>
    cases a with
    | nan => simp [isNum] at h
    | val q =>
      simp only [List.all_cons, Bool.and_eq_true] at h
      rw [show numVals (PixelVal.val q :: l) = q :: numVals l from rfl]
      simp [ih h.2]

/-- The returned count always equals the number of kept window cells. -/
theorem aggregate_count (arr : List PixelVal) (mask : List Bool)
    (nodata : Option PixelVal) :
    (aggregate arr mask nodata).count = (validVals arr mask nodata).length := by
  unfold aggregate
  split
  · rename_i he
    simp only [List.isEmpty_iff] at he
    simp [he]
  · rfl

/-- `validAt` at a successor index looks one cell further down. -/
theorem validAt_succ (a : PixelVal) (m : Bool) (arr : List PixelVal)
    (mask : List Bool) (nodata : Option PixelVal) (i : ℕ) :
    validAt (a :: arr) (m :: mask) nodata (i + 1) = validAt arr mask nodata i := rfl

/-- Head unfolding of `validVals`: the head cell is kept exactly when the
mask covers it and its value passes the NoData test. -/
theorem validVals_cons (a : PixelVal) (m : Bool) (arr : List PixelVal)
    (mask : List Bool) (nodata : Option PixelVal) :
    validVals (a :: arr) (m :: mask) nodata =
      if (m && nodataOk nodata a) = true
      then a :: validVals arr mask nodata
      else validVals arr mask nodata := by
  by_cases hc : (m && nodataOk nodata a) = true
  · simp [validVals, List.zip_cons_cons, List.filter_cons, hc]
  · simp [validVals, List.zip_cons_cons, List.filter_cons, hc]

/-- Counting a predicate over `range (n+1)` splits off index 0. -/
theorem rangeFilter_succ (n : ℕ) (q : ℕ → Bool) :
    ((List.range (n + 1)).filter q).length =
      (if q 0 = true then 1 else 0) +
        ((List.range n).filter (q ∘ Nat.succ)).length := by
  rw [List.range_succ_eq_map]
  by_cases h0 : q 0 = true
  · simp [List.filter_cons, h0, List.filter_map, Nat.add_comm]
  · simp [List.filter_cons, h0, List.filter_map]

/-- The list of kept cells has exactly as many entries as there are valid
indices of the window. -/
theorem validVals_length_eq (arr : List PixelVal) (mask : List Bool)
    (nodata : Option PixelVal) :
    (validVals arr mask nodata).length =
      ((List.range (min arr.length mask.length)).filter
        (fun i => validAt arr mask nodata i)).length := by
  induction arr generalizing mask with
  | nil => simp [validVals]
  | cons a arr ih =>
    cases mask with
    | nil => simp [validVals]
    | cons m mask =>
      rw [validVals_cons]
      simp only [List.length_cons, Nat.succ_min_succ]
      rw [rangeFilter_succ]
      have hq0 : validAt (a :: arr) (m :: mask) nodata 0 =
          (m && nodataOk nodata a) := rfl
      have hqs : ((fun i => validAt (a :: arr) (m :: mask) nodata i) ∘ Nat.succ) =
          fun i => validAt arr mask nodata i :=
        funext fun i => validAt_succ a m arr mask nodata i
      rw [hq0, hqs]
      by_cases hc : (m && nodataOk nodata a) = true
      · simp [hc, ih, Nat.add_comm]
      · simp [hc, ih]

/-- C3 (counterexample): with NoData −9999 and both cells mask-covered,
the window `[4, NaN]` aggregates to count 2 and mean 4: the NaN pixel is
excluded from the mean (via `np.nanmean`) but **is** counted, whereas the
claim says a NaN pixel contributes to neither the mean nor the count. -/
theorem C3_counterexample :
    (aggregate [PixelVal.val 4, PixelVal.nan] [true, true]
        (some (PixelVal.val (-9999)))).count = 2 ∧
    (aggregate [PixelVal.val 4, PixelVal.nan] [true, true]
        (some (PixelVal.val (-9999)))).mean = some (PixelVal.val 4) := by
  constructor
  · decide
  · norm_num [aggregate, validVals, nodataOk, pixNe, nanmean, numVals, List.zip_cons_cons,
      List.filter_cons, List.filterMap_cons]

/-- C3 (amended): NaN pixels are excluded from the mean the same as NoData
— the returned mean equals `nanmean` of the valid cells, which is invariant
under first dropping the NaN entries — but they are **included** in the
returned count, which equals the number of valid cells NaN entries and
all. -/
theorem C3_nan_skipped_in_mean_counted_in_count (arr : List PixelVal)
    (mask : List Bool) (nodata : Option PixelVal)
    (h : validVals arr mask nodata ≠ []) :
    (aggregate arr mask nodata).count = (validVals arr mask nodata).length ∧
    (aggregate arr mask nodata).mean =
      some (nanmean ((validVals arr mask nodata).filter isNum)) := by
  have hne : (validVals arr mask nodata).isEmpty = false := by
    simp [List.isEmpty_iff, h]
  constructor
  · exact aggregate_count arr mask nodata
  · simp [aggregate, hne, nanmean_filter_isNum]

/-- C3 (witness): `C3_nan_skipped_in_mean_counted_in_count` at a concrete
window containing a NaN cell. -/
theorem C3_witness :
    (aggregate [PixelVal.val 4, PixelVal.nan, PixelVal.val 7] [true, true, false]
        (some (PixelVal.val (-9999)))).count = 2 :=
  ((C3_nan_skipped_in_mean_counted_in_count
      [PixelVal.val 4, PixelVal.nan, PixelVal.val 7] [true, true, false]
      (some (PixelVal.val (-9999))) (by decide)).1).trans (by decide)

/-- C4 (counterexample): over the all-covered window `[2, 6, NaN]` with no
NoData sentinel, the code returns count 3 and mean 4 (`np.nanmean` skips
the NaN), while the arithmetic mean of the valid pixel values — as the
claim demands — would be NaN. -/
theorem C4_counterexample :
    (aggregate [PixelVal.val 2, PixelVal.val 6, PixelVal.nan]
        [true, true, true] none).count = 3 ∧
    (aggregate [PixelVal.val 2, PixelVal.val 6, PixelVal.nan]
        [true, true, true] none).mean = some (PixelVal.val 4) ∧
    ieeeMean (validVals [PixelVal.val 2, PixelVal.val 6, PixelVal.nan]
        [true, true, true] none) = PixelVal.nan := by
  refine ⟨by decide, ?_, by decide⟩
  norm_num [aggregate, validVals, nodataOk, nanmean, numVals, List.zip_cons_cons,
    List.filter_cons, List.filterMap_cons]

/-- C4 (amended): a window cell is valid iff it is mask-covered and
(NoData is unset or the value differs from the sentinel); the count is the
number of valid cells; zero valid cells yield `{mean: null, count: 0}` with
the diagnostic note; a positive count yields the NaN-skipping mean
(`np.nanmean`) of the valid values, which is their plain arithmetic mean
whenever no valid cell is NaN. -/
theorem C4_aggregate_contract (arr : List PixelVal) (mask : List Bool)
    (nodata : Option PixelVal) :
    ((aggregate arr mask nodata).count =
      ((List.range (min arr.length mask.length)).filter
        (fun i => validAt arr mask nodata i)).length) ∧
    (validVals arr mask nodata = [] →
      aggregate arr mask nodata =
        { mean := none, count := 0,
          note := some "sem pixels válidos (NoData/fora do raster)" }) ∧
    (validVals arr mask nodata ≠ [] →
      aggregate arr mask nodata =
        { mean := some (nanmean (validVals arr mask nodata)),
          count := (validVals arr mask nodata).length, note := none }) ∧
    (validVals arr mask nodata ≠ [] →
      (validVals arr mask nodata).all isNum = true →
      (aggregate arr mask nodata).mean =
        some (PixelVal.val ((numVals (validVals arr mask nodata)).sum /
          ((validVals arr mask nodata).length : ℚ)))) := by
  refine ⟨(aggregate_count arr mask nodata).trans
      (validVals_length_eq arr mask nodata), fun h => ?_, fun h => ?_, fun h hall => ?_⟩
  · simp [aggregate, h]
  · have hne : (validVals arr mask nodata).isEmpty = false := by
      simp [List.isEmpty_iff, h]
    simp [aggregate, hne]
  · have hne : (validVals arr mask nodata).isEmpty = false := by
      simp [List.isEmpty_iff, h]
    have hlen := numVals_length_of_all (validVals arr mask nodata) hall
    have hnn : numVals (validVals arr mask nodata) ≠ [] := by
      intro hnil
      rw [hnil] at hlen
      exact h (List.length_eq_zero.mp hlen.symm)
    have hns : (numVals (validVals arr mask nodata)).isEmpty = false := by
      simp [List.isEmpty_iff, hnn]
    simp [aggregate, hne, nanmean, hns, hlen]

/-- C4 (witness): `C4_aggregate_contract` at a NaN-free two-cell window,
whose mean is the arithmetic mean of the two values. -/
theorem C4_witness :
    (aggregate [PixelVal.val 2, PixelVal.val 4] [true, true] none).mean =
      some (PixelVal.val
        ((numVals (validVals [PixelVal.val 2, PixelVal.val 4] [true, true] none)).sum /
          ((validVals [PixelVal.val 2, PixelVal.val 4] [true, true] none).length : ℚ))) :=
  (C4_aggregate_contract [PixelVal.val 2, PixelVal.val 4] [true, true] none).2.2.2
    (by decide) (by decide)

/-- C6: the point query returns null when the computed pixel index is
outside `[0,height) × [0,width)`, null when the single read pixel is masked
as NoData, and the pixel's value otherwise. -/
theorem C6_point_contract (env : PointEnv) :
    ((env.row < 0 ∨ env.col < 0 ∨ (env.raster.height : ℤ) ≤ env.row ∨
        (env.raster.width : ℤ) ≤ env.col) → get_value env = none) ∧
    (¬(env.row < 0 ∨ env.col < 0 ∨ (env.raster.height : ℤ) ≤ env.row ∨
        (env.raster.width : ℤ) ≤ env.col) →
      maskedAt env.raster.nodata (env.pix env.row env.col) = true →
      get_value env = none) ∧
    (¬(env.row < 0 ∨ env.col < 0 ∨ (env.raster.height : ℤ) ≤ env.row ∨
        (env.raster.width : ℤ) ≤ env.col) →
      maskedAt env.raster.nodata (env.pix env.row env.col) = false →
      get_value env = some (env.pix env.row env.col)) := by
  refine ⟨fun h => ?_, fun h hm => ?_, fun h hm => ?_⟩
  · simp [get_value, h]
  · simp [get_value, h, hm]
  · simp [get_value, h, hm]

/-- C6 (witness): `C6_point_contract` at a concrete in-bounds unmasked
point request. -/
theorem C6_witness : get_value envPoint = some (PixelVal.val 7) :=
  (C6_point_contract envPoint).2.2 (by decide) (by decide)

/-- C8: when the raster declares no CRS, or declares one whose upper-cased
name is `EPSG:4326` or `WGS84`, reprojection returns the input geometry
itself — exactly, for any geometry type and any transformer. -/
theorem C8_reprojection_shortcut {α : Type} (crs : Option String) (ok : Bool)
    (tr : α → α) (g : α)
    (h : crs = none ∨ ∃ c, crs = some c ∧ pyUpper c ∈ wgs84Names) :
    _to_src_crs crs ok tr g = Except.ok g := by
  rcases h with h | ⟨c, hc1, hc2⟩
  · subst h
    rfl
  · subst hc1
    simp [_to_src_crs, hc2]

/-- C8 (witness): `C8_reprojection_shortcut` for a lower-case `epsg:4326`
raster CRS, a non-trivial transformer and a rational geometry: the output
is the input, untouched. -/
theorem C8_witness :
    _to_src_crs (some "epsg:4326") false (fun q => q + 1) (0 : ℚ) = Except.ok 0 :=
  C8_reprojection_shortcut (some "epsg:4326") false (fun q => q + 1) 0
    (Or.inr ⟨"epsg:4326", rfl, by decide⟩)

end ApiValor
